import Mathlib

/-!
Shallow embedding of `src/main.py` (YouTube RSS → Gemini → Markdown batch job).

External HTTP calls, subprocess invocations and the random number generator are
modelled by explicit environment records: the environment supplies the status
code and body of each HTTP response, the outcome of each subprocess call, and
the sampled backoff values.  The functions below mirror the control flow of the
Python source on those environments; traces record the observable effects
(upload calls, generation attempts, backoff sleeps, notification signals,
files written).

Python integers are modelled as `Nat`/`Int`, byte strings as `List Nat`,
JSON optionality (a missing key read with `dict.get(k, default)` or a missing
attribute read with `getattr`/`hasattr`) as `Option`.
`requests.Response.raise_for_status` raises exactly for status codes in
`[400, 600)`; `subprocess.run` without `check=True` never raises for a nonzero
exit code but does raise when the executable cannot be spawned.
-/

namespace YTO

/-- Raw audio payload bytes (`mp3_bytes` in the source). -/
abbrev Bytes := List Nat

/-- The base64 alphabet used by `base64.b64encode`. -/
def b64Alphabet : String :=
  "ABCDEFGHIJKLMNOPQRSTUVWXYZabcdefghijklmnopqrstuvwxyz0123456789+/"

/-- Character of the base64 alphabet at index `n` (`n < 64`). -/
def b64Char (n : Nat) : Char := b64Alphabet.data.getD n 'A'

/-- Standard base64 encoding of a byte list (`base64.b64encode`), with
padding.  Bytes are taken modulo 256 as in a Python `bytes` object. -/
def b64encode : Bytes → String
  | [] => ""
  | [b1] =>
    String.mk [b64Char (b1 / 4 % 64), b64Char (b1 % 4 * 16)] ++ "=="
  | [b1, b2] =>
    String.mk [b64Char (b1 / 4 % 64), b64Char (b1 % 4 * 16 + b2 / 16 % 16),
      b64Char (b2 % 16 * 4)] ++ "="
  | b1 :: b2 :: b3 :: rest =>
    String.mk [b64Char (b1 / 4 % 64), b64Char (b1 % 4 * 16 + b2 / 16 % 16),
      b64Char (b2 % 16 * 4 + b3 / 64 % 4), b64Char (b3 % 64)] ++ b64encode rest

/-- The fixed instruction document sent as the text part of every generation
request (source lines 49–99).  Its content is a long Japanese editorial
instruction; no control flow of the pipeline depends on its text, so it is
kept as an abstract constant string here. -/
def PROMPT : String := "PROMPT"

/-- Generation endpoint URL (source line 19). -/
def GEN_URL : String :=
  "https://generativelanguage.googleapis.com/v1beta/models/gemini-2.0-flash:generateContent"

/-- Upload endpoint URL (source line 23). -/
def UPLOAD_URL : String := "https://generativelanguage.googleapis.com/upload/v1beta/files"

/-- Recency window in hours (source line 24). -/
def WINDOW_HOURS : Nat := 24

/-- One part of the `contents[0].parts` array of a generation request. -/
inductive Part where
  | file_data (file_uri : String)
  | inline_data (mime_type : String) (data : String)
  | text (s : String)
  deriving DecidableEq

/-- True for the two payload-carrying part shapes (inline bytes or an
uploaded-file reference), false for the prompt text part. -/
def Part.isPayload : Part → Bool
  | .file_data _ => true
  | .inline_data _ _ => true
  | .text _ => false

/-- Behaviour of `Response.raise_for_status`: it raises exactly for client and
server error codes, `400 ≤ status < 600`.  Informational, redirect and other
statuses outside that range do not raise. -/
def raise_for_status (status : Nat) : Bool :=
  decide (400 ≤ status ∧ status < 600)

/-- Response of the upload endpoint as seen by `gemini_audio`: HTTP status and
the two JSON fields read from the body (`j["file"]["uri"]`, `j["file"]["name"]`),
`none` when the field is absent. -/
structure UploadResponse where
  status : Nat
  fileUri : Option String
  fileName : Option String
  deriving DecidableEq

/-- Python truthiness of an optional string: `None` and the empty string are
falsy. -/
def truthyStr : Option String → Option String
  | some s => if s = "" then none else some s
  | none => none

/-- The file reference extracted from the upload JSON:
`j.get("file", {}).get("uri") or j.get("file", {}).get("name")`, `none` when
neither field is a truthy string. -/
def upload_file_uri (u : UploadResponse) : Option String :=
  match truthyStr u.fileUri with
  | some s => some s
  | none => truthyStr u.fileName

/-- Response of the generation endpoint at one attempt: HTTP status and, when
the JSON body has the shape `candidates[0].content.parts[0].text`, that text. -/
structure GenResponse where
  status : Nat
  text : Option String
  deriving DecidableEq

/-- Environment of one `gemini_audio` call: the upload response the service
would give, the generation response at each attempt index, and the value
`random.uniform(0, 3)` drawn at each backoff. -/
structure GeminiEnv where
  upload : UploadResponse
  gen : Nat → GenResponse
  backoff : Nat → ℚ

/-- Failure modes of `gemini_audio`. -/
inductive GeminiError where
  /-- `up.raise_for_status()` raised. -/
  | uploadHttpError (status : Nat)
  /-- `RuntimeError`: the upload JSON has neither a truthy `uri` nor `name`. -/
  | uploadMissingName
  /-- `res.raise_for_status()` raised during the generation loop. -/
  | httpError (status : Nat)
  /-- The generation JSON body lacks `candidates[0].content.parts[0].text`. -/
  | malformedResponse
  /-- `RuntimeError` after the 5-attempt loop ends without a return. -/
  | retriesExhausted
  deriving DecidableEq

/-- Observable effects of the generation retry loop. -/
structure GenTrace where
  genAttempts : Nat
  backoffSleeps : List ℚ
  backoffSignals : List Nat
  cooldown : Bool
  deriving DecidableEq

/-- The empty generation trace. -/
def emptyGenTrace : GenTrace := ⟨0, [], [], false⟩

/-- The retry loop of `gemini_audio` (source lines 146–158):
`for retry in range(5)`, with `fuel` remaining iterations and `retry` the
current attempt index.  On a 429/503 status it records the notification
signal and the backoff sleep `2 ** retry + random.uniform(0, 3)` and
retries; on a 4xx/5xx status it raises; otherwise it returns the extracted
text after a cooldown sleep, or raises if the body shape is missing.
Delivery of the backoff notification is an external collaborator and is
recorded as a trace event; the `notify` function itself is modelled
separately below. -/
def genLoop (env : GeminiEnv) : Nat → Nat → GenTrace →
    Except GeminiError String × GenTrace
  | 0, _, tr => (.error .retriesExhausted, tr)
  | fuel + 1, retry, tr =>
    let r := env.gen retry
    let tr1 : GenTrace :=
      ⟨tr.genAttempts + 1, tr.backoffSleeps, tr.backoffSignals, tr.cooldown⟩
    if r.status = 429 ∨ r.status = 503 then
      let wait : ℚ := 2 ^ retry + env.backoff retry
      genLoop env fuel (retry + 1)
        ⟨tr1.genAttempts, tr1.backoffSleeps ++ [wait],
         tr1.backoffSignals ++ [r.status], tr1.cooldown⟩
    else if raise_for_status r.status then
      (.error (.httpError r.status), tr1)
    else
      match r.text with
      | some t => (.ok t, ⟨tr1.genAttempts, tr1.backoffSleeps, tr1.backoffSignals, true⟩)
      | none => (.error .malformedResponse, tr1)

/-- The generation call with retries, started at attempt index 0 with 5
iterations of fuel, as in `for retry in range(5)`. -/
def generateWithRetry (env : GeminiEnv) : Except GeminiError String × GenTrace :=
  genLoop env 5 0 emptyGenTrace

/-- Observable effects of one `gemini_audio` call: how many times the upload
endpoint was called, the parts of the generation payload once built, and the
trace of the retry loop. -/
structure GeminiTrace where
  uploadCalls : Nat
  requestParts : Option (List Part)
  genTrace : GenTrace
  deriving DecidableEq

/-- `gemini_audio(mp3_bytes)` (source lines 106–158).  If the payload exceeds
20 MiB the raw bytes are posted to the upload endpoint and the generation
payload references the returned file; otherwise the payload embeds the bytes
as base64 `inline_data`.  The generation request is then submitted through
the retry loop.  The HTTP responses are supplied by `env`. -/
def gemini_audio (env : GeminiEnv) (mp3_bytes : Bytes) :
    Except GeminiError String × GeminiTrace :=
  if mp3_bytes.length > 20 * 1024 * 1024 then
    if raise_for_status env.upload.status then
      (.error (.uploadHttpError env.upload.status), ⟨1, none, emptyGenTrace⟩)
    else
      match upload_file_uri env.upload with
      | none => (.error .uploadMissingName, ⟨1, none, emptyGenTrace⟩)
      | some file_uri =>
        let parts : List Part := [.file_data file_uri, .text PROMPT]
        let rg := generateWithRetry env
        (rg.1, ⟨1, some parts, rg.2⟩)
  else
    let parts : List Part :=
      [.inline_data "audio/mp3" (b64encode mp3_bytes), .text PROMPT]
    let rg := generateWithRetry env
    (rg.1, ⟨0, some parts, rg.2⟩)

/-- Metadata printed by `yt-dlp -j` as read by the classifier: each field is
`none` when the key is absent from the JSON object (`dict.get` default). -/
structure MediaMetadata where
  duration : Option Int
  width : Option Int
  height : Option Int
  is_live : Option Bool
  was_live : Option Bool
  live_status : Option String
  deriving DecidableEq

/-- Python truthiness of an optional boolean: missing and `False` are falsy. -/
def truthy : Option Bool → Bool
  | some b => b
  | none => false

/-- `is_stream(meta)` (source lines 175–180): the metadata is truthy for
`is_live` or `was_live`, or its `live_status` is one of the three live
statuses.  A missing `live_status` is not in the set. -/
def is_stream (meta : MediaMetadata) : Bool :=
  truthy meta.is_live || truthy meta.was_live ||
    (match meta.live_status with
     | some s => (["is_live", "was_live", "is_upcoming"] : List String).contains s
     | none => false)

/-- The pure classification step of `classify_video` (source lines 192–197),
applied to the metadata already probed and parsed; the `yt-dlp -j` probe
subprocess itself is an external collaborator supplied by the entry
environment below.  `data.get` defaults make a missing `duration`, `width`
or `height` read as `0`. -/
def classify_video (data : MediaMetadata) : String :=
  let dur := data.duration.getD 0
  let w := data.width.getD 0
  let h := data.height.getD 0
  if dur ≤ 60 ∨ (h ≠ 0 ∧ w ≠ 0 ∧ h > w) then "shorts"
  else if is_stream data then "stream"
  else "video"

/-- The first six fields of a `time.struct_time` as produced by feedparser
(`published_parsed` / `updated_parsed`). -/
structure TimeStruct where
  tm_year : Nat
  tm_mon : Nat
  tm_mday : Nat
  tm_hour : Nat
  tm_min : Nat
  tm_sec : Nat
  deriving DecidableEq

/-- Days before January 1 of `year` in the proleptic Gregorian calendar
(`datetime._days_before_year`); the model assumes `1 ≤ year` as enforced by
`datetime.date`. -/
def days_before_year (year : Nat) : Nat :=
  let y := year - 1
  y * 365 + y / 4 + y / 400 - y / 100

/-- Leap-year test of the proleptic Gregorian calendar. -/
def isLeap (year : Nat) : Bool :=
  year % 4 = 0 && (year % 100 ≠ 0 || year % 400 = 0)

/-- Days in `year` before the first day of `month` (1-indexed), February
adjusted in leap years (`datetime._days_before_month`). -/
def days_before_month (year month : Nat) : Nat :=
  let base := [0, 31, 59, 90, 120, 151, 181, 212, 243, 273, 304, 334].getD (month - 1) 0
  if 2 < month ∧ isLeap year then base + 1 else base

/-- `calendar.timegm` restricted to the first six struct fields: UTC epoch
seconds computed from the proleptic Gregorian ordinal, with no dependence on
the local timezone.  `719163` is the ordinal of 1970-01-01. -/
def timegm (t : TimeStruct) : Int :=
  let ord : Nat := days_before_year t.tm_year + days_before_month t.tm_year t.tm_mon + 1
  let days : Int := (ord : Int) - 719163 + (t.tm_mday : Int) - 1
  let hours : Int := days * 24 + t.tm_hour
  let minutes : Int := hours * 60 + t.tm_min
  minutes * 60 + t.tm_sec

/-- A feedparser entry as read by `crawl` and `handle_entry`: optional fields
model attributes that may be absent (`getattr` / `hasattr`). -/
structure FeedEntry where
  yt_videoid : Option String
  title : String
  author : Option String
  published : String
  published_parsed : Option TimeStruct
  updated_parsed : Option TimeStruct
  deriving DecidableEq

/-- The nine characters removed by the sanitising regular expression
`re.sub(r'[\\/*?:"<>|]', "", ...)` in `handle_entry`. -/
def unsafeChars : List Char := ['\\', '/', '*', '?', ':', '\"', '<', '>', '|']

/-- Removal of the path-unsafe characters from a string (the `re.sub` call). -/
def stripUnsafe (s : String) : String :=
  String.mk (s.data.filter (fun c => decide (c ∉ unsafeChars)))

/-- Python string slicing `s[:n]`, by code points. -/
def takeChars (s : String) (n : Nat) : String := String.mk (s.data.take n)

/-- `title_safe` of `handle_entry` (source line 219): unsafe characters
removed, then truncated to 80 characters. -/
def title_safe (entry : FeedEntry) : String := takeChars (stripUnsafe entry.title) 80

/-- `channel_safe` of `handle_entry` (source line 220): the author attribute
with default `"unknown"`, unsafe characters removed, truncated to 40. -/
def channel_safe (entry : FeedEntry) : String :=
  takeChars (stripUnsafe (entry.author.getD "unknown")) 40

/-- The output filename of `handle_entry` (source line 221):
`f"{entry.published[:10]}_{title_safe}_{channel_safe}.md"`. -/
def out_filename (entry : FeedEntry) : String :=
  takeChars entry.published 10 ++ "_" ++ title_safe entry ++ "_" ++
    channel_safe entry ++ ".md"

/-- Environment of one `handle_entry` call: the outcome of the metadata
probe (`yt-dlp -j`, raising on nonzero exit because of `check=True`), the
outcome of the audio download (`yt-dlp -x`, likewise `check=True`, giving the
bytes later read from the temporary file), and the Gemini environment. -/
structure EntryEnv where
  probe : Except Unit MediaMetadata
  download : Except Unit Bytes
  gemini : GeminiEnv

/-- Normal outcomes of `handle_entry`. -/
inductive Outcome where
  /-- Returned early: `yt_videoid` missing or falsy. -/
  | skippedNoId
  /-- Returned early: classification was not `"video"`. -/
  | skippedKind (kind : String)
  /-- The markdown file was written. -/
  | written (filename : String)
  deriving DecidableEq

/-- Exceptions that propagate out of `handle_entry`; the function has no
exception handler, so each of these reaches the caller. -/
inductive EntryError where
  /-- `subprocess.CalledProcessError` from the metadata probe. -/
  | probeFailed
  /-- `subprocess.CalledProcessError` from the audio download. -/
  | downloadFailed
  /-- An exception raised inside `gemini_audio`. -/
  | geminiFailed (e : GeminiError)
  deriving DecidableEq

/-- Observable effects of one `handle_entry` call.  `transcribeCalls` counts
invocations of `gemini_audio`; `fileWritten` holds the name and content of
the markdown file once written; `notices` records the success notification
(delivery of notifications is modelled separately by `notify`). -/
structure EntryTrace where
  transcribeCalls : Nat
  fileWritten : Option (String × String)
  notices : List String
  deriving DecidableEq

/-- `handle_entry(entry)` (source lines 201–226).  There is no idempotency
store in the source: the function reads nothing but `entry` and `env`, and
records no identifier anywhere, so a repeated invocation repeats every
step. -/
def handle_entry (env : EntryEnv) (entry : FeedEntry) :
    Except EntryError Outcome × EntryTrace :=
  match entry.yt_videoid with
  | none => (.ok .skippedNoId, ⟨0, none, []⟩)
  | some vid =>
    if vid = "" then (.ok .skippedNoId, ⟨0, none, []⟩)
    else
      match env.probe with
      | .error _ => (.error .probeFailed, ⟨0, none, []⟩)
      | .ok meta =>
        let kind := classify_video meta
        if kind ≠ "video" then (.ok (.skippedKind kind), ⟨0, none, []⟩)
        else
          match env.download with
          | .error _ => (.error .downloadFailed, ⟨0, none, []⟩)
          | .ok mp3 =>
            match gemini_audio env.gemini mp3 with
            | (.error e, _) => (.error (.geminiFailed e), ⟨1, none, []⟩)
            | (.ok md, _) =>
              let fname := out_filename entry
              (.ok (.written fname),
               ⟨1, some (fname, md), [title_safe entry ++ " を保存"]⟩)

/-- Result of `feedparser.parse` on one configured source, as consumed by
`crawl`: either the entry list, or an exception raised while parsing or
iterating the source. -/
inductive SourceResult where
  | parseFailure
  | parsed (entries : List FeedEntry)
  deriving DecidableEq

/-- Exceptions that propagate out of `crawl`; the loop has no exception
handler around either the per-source or the per-entry work. -/
inductive CrawlError where
  | sourceError
  | entryError (e : EntryError)
  deriving DecidableEq

/-- The inner entry loop of `crawl` (source lines 239–246): skip entries with
no `published_parsed` attribute, convert with `calendar.timegm`, skip entries
older than `since_ts`, and hand the rest to the entry handler.  The handler
abstracts `handle_entry` with some fixed environment per entry; an exception
from it propagates immediately, so the returned list of entries actually
handed to the handler stops at the first failure. -/
def runEntries (handler : FeedEntry → Except EntryError Unit) (since_ts : Int) :
    List FeedEntry → Except EntryError Unit × List FeedEntry
  | [] => (.ok (), [])
  | e :: rest =>
    match e.published_parsed with
    | none => runEntries handler since_ts rest
    | some t =>
      if timegm t < since_ts then runEntries handler since_ts rest
      else
        match handler e with
        | .error err => (.error err, [e])
        | .ok () =>
          let rl := runEntries handler since_ts rest
          (rl.1, e :: rl.2)

/-- `crawl()` (source lines 229–246) over already-validated feed sources:
`since_ts = now − WINDOW_HOURS * 3600`; each source is parsed and its entries
run through `runEntries`.  No exception is caught, so a parse failure or an
entry failure ends the whole loop; the second component lists the entries
handed to the entry pipeline, in order. -/
def crawl (handler : FeedEntry → Except EntryError Unit) (now : Int) :
    List SourceResult → Except CrawlError Unit × List FeedEntry
  | [] => (.ok (), [])
  | .parseFailure :: _ => (.error .sourceError, [])
  | .parsed es :: rest =>
    match runEntries handler (now - (WINDOW_HOURS : Int) * 3600) es with
    | (.error err, l) => (.error (.entryError err), l)
    | (.ok (), l) =>
      let rl := crawl handler now rest
      (rl.1, l ++ rl.2)

/-- Environment of one `notify` call: whether the `pync` import succeeded
(`_USE_PYNC`), whether `Notifier.notify` raises, whether `subprocess.run`
fails to spawn `osascript` (raising `FileNotFoundError`), and the exit code
of `osascript` when it does run (ignored, since `check=True` is not passed). -/
structure NotifyEnv where
  usePync : Bool
  pyncRaises : Bool
  osaSpawnFails : Bool
  osaExitCode : Int
  deriving DecidableEq

/-- The delivery mechanisms tried by `notify`, in order. -/
inductive Mech where
  | pync
  | osascript
  deriving DecidableEq

/-- The fallback branch of `notify`: run `osascript` via `subprocess.run`.
Spawning may raise; a nonzero exit code is ignored. -/
def osascriptStep (env : NotifyEnv) (tried : List Mech) :
    Except Unit Unit × List Mech :=
  if env.osaSpawnFails then (.error (), tried ++ [Mech.osascript])
  else (.ok (), tried ++ [Mech.osascript])

/-- `notify(msg, title)` (source lines 35–44): try `pync` first when it
imported, swallowing any exception from it, then fall back to `osascript`.
The message and title do not influence control flow. -/
def notify (env : NotifyEnv) (_msg _title : String) : Except Unit Unit × List Mech :=
  if env.usePync then
    if env.pyncRaises then osascriptStep env [Mech.pync]
    else (.ok (), [Mech.pync])
  else osascriptStep env []

/-- Probe metadata of an ordinary long-form video: 600 seconds, landscape
1920x1080, no live flags.  Used by the concrete environments below. -/
def okMeta : MediaMetadata := ⟨some 600, some 1920, some 1080, none, none, none⟩

/-- A Gemini environment whose generation endpoint immediately succeeds with
body text `"MD"`. -/
def okGemini : GeminiEnv :=
  ⟨⟨200, some "files/abc", none⟩, fun _ => ⟨200, some "MD"⟩, fun _ => 0⟩

/-- An entry environment in which every external step succeeds. -/
def okEnv : EntryEnv := ⟨.ok okMeta, .ok [1, 2, 3], okGemini⟩

/-- A concrete feed entry whose title contains path-unsafe characters. -/
def eOk : FeedEntry :=
  ⟨some "vid1", "Title/With:Bad*Chars", some "Chan", "2024-05-01T12:00:00+00:00",
   some ⟨2024, 5, 1, 12, 0, 0⟩, none⟩

/-- A Gemini environment that is rate-limited (429) on every attempt. -/
def rateLimitedEnv : GeminiEnv := ⟨⟨200, none, none⟩, fun _ => ⟨429, none⟩, fun _ => 0⟩

/-- A Gemini environment rate-limited at attempt 0 and succeeding at attempt 1. -/
def recoverEnv : GeminiEnv :=
  ⟨⟨200, none, none⟩, fun i => if i = 0 then ⟨429, none⟩ else ⟨200, some "hi"⟩, fun _ => 0⟩

/-- A Gemini environment whose upload endpoint returns 404. -/
def uploadFailEnv : GeminiEnv := ⟨⟨404, none, none⟩, fun _ => ⟨200, some "x"⟩, fun _ => 0⟩

/-- A Gemini environment whose generation endpoint returns 400 on every
attempt. -/
def badRequestEnv : GeminiEnv := ⟨⟨200, none, none⟩, fun _ => ⟨400, none⟩, fun _ => 0⟩

/-- A Gemini environment whose generation endpoint answers status 304 (a
non-2xx status outside the 4xx/5xx range) with a well-formed body. -/
def redirectEnv : GeminiEnv := ⟨⟨200, none, none⟩, fun _ => ⟨304, some "ok"⟩, fun _ => 0⟩

/-- An audio payload one byte over the 20 MiB threshold. -/
def bigBytes : Bytes := List.replicate (20 * 1024 * 1024 + 1) 0

/-- Short-form rule of the specification: duration at most 60 seconds (a
missing duration probes as 0), or both dimensions known and nonzero with
height exceeding width. -/
def short_form_spec (m : MediaMetadata) : Prop :=
  m.duration.getD 0 ≤ 60 ∨
    ∃ wv hv, m.width = some wv ∧ m.height = some hv ∧ wv ≠ 0 ∧ hv ≠ 0 ∧ hv > wv

/-- Live/stream rule of the specification: the metadata signals live,
previously live, or carries a live-status value among the three listed. -/
def live_stream_spec (m : MediaMetadata) : Prop :=
  m.is_live = some true ∨ m.was_live = some true ∨
    ∃ s, m.live_status = some s ∧ s ∈ (["is_live", "was_live", "is_upcoming"] : List String)

/-! Helper lemmas about the generation retry loop. -/

theorem range_map_shift {α : Type} (p : Nat → α) (f r : Nat) :
    (List.range' r (f + 1)).map p = p r :: (List.range' (r + 1) f).map p := by
  rw [List.range'_succ, List.map_cons]

theorem genLoop_zero (env : GeminiEnv) (r : Nat) (tr : GenTrace) :
    genLoop env 0 r tr = (.error .retriesExhausted, tr) := rfl

theorem genLoop_retry_step (env : GeminiEnv) (f r : Nat) (tr : GenTrace)
    (h : (env.gen r).status = 429 ∨ (env.gen r).status = 503) :
    genLoop env (f + 1) r tr =
      genLoop env f (r + 1)
        ⟨tr.genAttempts + 1, tr.backoffSleeps ++ [(2 : ℚ) ^ r + env.backoff r],
         tr.backoffSignals ++ [(env.gen r).status], tr.cooldown⟩ := by
  simp only [genLoop]
  rw [if_pos h]

theorem genLoop_final_step (env : GeminiEnv) (f r : Nat) (tr : GenTrace)
    (hnr : ¬((env.gen r).status = 429 ∨ (env.gen r).status = 503)) :
    genLoop env (f + 1) r tr =
      if raise_for_status (env.gen r).status then
        (.error (.httpError (env.gen r).status),
         ⟨tr.genAttempts + 1, tr.backoffSleeps, tr.backoffSignals, tr.cooldown⟩)
      else
        match (env.gen r).text with
        | some t => (.ok t, ⟨tr.genAttempts + 1, tr.backoffSleeps, tr.backoffSignals, true⟩)
        | none => (.error .malformedResponse,
                   ⟨tr.genAttempts + 1, tr.backoffSleeps, tr.backoffSignals, tr.cooldown⟩) := by
  simp only [genLoop]
  rw [if_neg hnr]

theorem genLoop_all_retry (env : GeminiEnv) (f : Nat) :
    ∀ (r : Nat) (tr : GenTrace),
    (∀ i, r ≤ i → i < r + f → (env.gen i).status = 429 ∨ (env.gen i).status = 503) →
    genLoop env f r tr =
      (.error .retriesExhausted,
       ⟨tr.genAttempts + f,
        tr.backoffSleeps ++ (List.range' r f).map (fun i => (2 : ℚ) ^ i + env.backoff i),
        tr.backoffSignals ++ (List.range' r f).map (fun i => (env.gen i).status),
        tr.cooldown⟩) := by
  induction f with
  | zero =>
    intro r tr _
    simp [genLoop_zero]
  | succ f ih =>
    intro r tr h
    have h0 := h r (le_refl r) (by omega)
    rw [genLoop_retry_step env f r tr h0]
    rw [ih (r + 1) _ (fun i h1 h2 => h i (by omega) (by omega))]
    rw [range_map_shift, range_map_shift]
    simp only [List.append_assoc, List.singleton_append]
    congr 2
    omega

theorem genLoop_success (env : GeminiEnv) (j : Nat) :
    ∀ (f r : Nat) (tr : GenTrace) (t : String),
    j < f →
    (∀ i, r ≤ i → i < r + j → (env.gen i).status = 429 ∨ (env.gen i).status = 503) →
    ¬((env.gen (r + j)).status = 429 ∨ (env.gen (r + j)).status = 503) →
    raise_for_status (env.gen (r + j)).status = false →
    (env.gen (r + j)).text = some t →
    genLoop env f r tr =
      (.ok t,
       ⟨tr.genAttempts + j + 1,
        tr.backoffSleeps ++ (List.range' r j).map (fun i => (2 : ℚ) ^ i + env.backoff i),
        tr.backoffSignals ++ (List.range' r j).map (fun i => (env.gen i).status),
        true⟩) := by
  induction j with
  | zero =>
    intro f r tr t hf hpre hnr hok htxt
    obtain ⟨f, rfl⟩ : ∃ g, f = g + 1 := ⟨f - 1, by omega⟩
    simp only [Nat.add_zero] at hnr hok htxt
    rw [genLoop_final_step env f r tr hnr, hok, htxt]
    simp
  | succ j ih =>
    intro f r tr t hf hpre hnr hok htxt
    obtain ⟨f, rfl⟩ : ∃ g, f = g + 1 := ⟨f - 1, by omega⟩
    have h0 := hpre r (le_refl r) (by omega)
    have harg : r + 1 + j = r + (j + 1) := by omega
    rw [genLoop_retry_step env f r tr h0]
    rw [ih f (r + 1) _ t (by omega) (fun i h1 h2 => hpre i (by omega) (by omega))
      (by rw [harg]; exact hnr) (by rw [harg]; exact hok) (by rw [harg]; exact htxt)]
    rw [range_map_shift, range_map_shift]
    simp only [List.append_assoc, List.singleton_append]
    congr 2
    omega

theorem genLoop_http_error (env : GeminiEnv) (f r : Nat) (tr : GenTrace)
    (hnr : ¬((env.gen r).status = 429 ∨ (env.gen r).status = 503))
    (hra : raise_for_status (env.gen r).status = true) :
    genLoop env (f + 1) r tr =
      (.error (.httpError (env.gen r).status),
       ⟨tr.genAttempts + 1, tr.backoffSleeps, tr.backoffSignals, tr.cooldown⟩) := by
  rw [genLoop_final_step env f r tr hnr, hra]
  simp

/-! Helper lemmas about the payload-shape branch of `gemini_audio`. -/

theorem gemini_audio_small (env : GeminiEnv) (mp3_bytes : Bytes)
    (h : ¬ mp3_bytes.length > 20 * 1024 * 1024) :
    gemini_audio env mp3_bytes =
      ((generateWithRetry env).1,
       ⟨0, some [Part.inline_data "audio/mp3" (b64encode mp3_bytes), Part.text PROMPT],
        (generateWithRetry env).2⟩) := by
  simp only [gemini_audio, if_neg h]

theorem gemini_audio_big (env : GeminiEnv) (mp3_bytes : Bytes)
    (h : mp3_bytes.length > 20 * 1024 * 1024) :
    (gemini_audio env mp3_bytes).2.uploadCalls = 1 ∧
    ((gemini_audio env mp3_bytes).2.requestParts = none ∨
     ∃ uri, upload_file_uri env.upload = some uri ∧
       (gemini_audio env mp3_bytes).2.requestParts =
         some [Part.file_data uri, Part.text PROMPT]) := by
  simp only [gemini_audio, if_pos h]
  by_cases hrs : raise_for_status env.upload.status
  · rw [if_pos hrs]
    exact ⟨rfl, Or.inl rfl⟩
  · rw [if_neg hrs]
    cases hfu : upload_file_uri env.upload with
    | none => exact ⟨rfl, Or.inl rfl⟩
    | some uri => exact ⟨rfl, Or.inr ⟨uri, rfl, rfl⟩⟩

/-- C1: for every audio payload, `gemini_audio` selects exactly one request
shape by the 20 MiB threshold on the raw byte length: above the threshold it
calls the upload endpoint exactly once and any payload it builds is an
uploaded-file reference, never an inline part; at or below the threshold it
never calls the upload endpoint and builds the inline base64 part; and every
request built carries exactly one payload part. -/
theorem c1_size_threshold (env : GeminiEnv) (mp3_bytes : Bytes) :
    (mp3_bytes.length > 20 * 1024 * 1024 →
      (gemini_audio env mp3_bytes).2.uploadCalls = 1 ∧
      ∀ ps, (gemini_audio env mp3_bytes).2.requestParts = some ps →
        (∃ uri, ps = [Part.file_data uri, Part.text PROMPT]) ∧
        ∀ mt d, Part.inline_data mt d ∉ ps) ∧
    (mp3_bytes.length ≤ 20 * 1024 * 1024 →
      (gemini_audio env mp3_bytes).2.uploadCalls = 0 ∧
      (gemini_audio env mp3_bytes).2.requestParts =
        some [Part.inline_data "audio/mp3" (b64encode mp3_bytes), Part.text PROMPT]) ∧
    (∀ ps, (gemini_audio env mp3_bytes).2.requestParts = some ps →
      (ps.filter Part.isPayload).length = 1) := by
  by_cases hlen : mp3_bytes.length > 20 * 1024 * 1024
  · obtain ⟨hup, hparts⟩ := gemini_audio_big env mp3_bytes hlen
    refine ⟨fun _ => ⟨hup, ?_⟩, fun hle => absurd hlen (by omega), ?_⟩
    · intro ps hps
      rcases hparts with hnone | ⟨uri, _, hsome⟩
      · rw [hnone] at hps; exact absurd hps (by simp)
      · rw [hsome] at hps
        obtain rfl : ps = [Part.file_data uri, Part.text PROMPT] := by
          simpa using hps.symm
        refine ⟨⟨uri, rfl⟩, ?_⟩
        intro mt d hmem
        simp at hmem
    · intro ps hps
      rcases hparts with hnone | ⟨uri, _, hsome⟩
      · rw [hnone] at hps; exact absurd hps (by simp)
      · rw [hsome] at hps
        obtain rfl : ps = [Part.file_data uri, Part.text PROMPT] := by
          simpa using hps.symm
        simp [Part.isPayload]
  · rw [gemini_audio_small env mp3_bytes hlen]
    refine ⟨fun hgt => absurd hgt hlen, fun _ => ⟨rfl, rfl⟩, ?_⟩
    intro ps hps
    obtain rfl : ps = [Part.inline_data "audio/mp3" (b64encode mp3_bytes), Part.text PROMPT] := by
      simpa using hps.symm
    simp [Part.isPayload]

/-- Witness for C1: a 3-byte payload goes inline (zero upload calls, base64
data `"AQID"`), and a payload one byte over 20 MiB triggers exactly one
upload call. -/
theorem c1_size_threshold_witness :
    (([1, 2, 3] : Bytes).length ≤ 20 * 1024 * 1024 ∧
     (gemini_audio okGemini [1, 2, 3]).2.uploadCalls = 0 ∧
     (gemini_audio okGemini [1, 2, 3]).2.requestParts =
       some [Part.inline_data "audio/mp3" (b64encode [1, 2, 3]), Part.text PROMPT] ∧
     b64encode [1, 2, 3] = "AQID") ∧
    (bigBytes.length > 20 * 1024 * 1024 ∧
     (gemini_audio okGemini bigBytes).2.uploadCalls = 1) := by
  have hbig : bigBytes.length > 20 * 1024 * 1024 := by
    unfold bigBytes
    rw [List.length_replicate]
    omega
  have hsmall := (c1_size_threshold okGemini [1, 2, 3]).2.1 (by norm_num)
  exact ⟨⟨by norm_num, hsmall.1, hsmall.2, by decide⟩,
         ⟨hbig, ((c1_size_threshold okGemini bigBytes).1 hbig).1⟩⟩

/-- C2: when the generation endpoint answers 429 or 503 at every attempt,
exactly 5 attempts are made, each followed by a backoff sleep of
`2 ^ attempt_index + uniform_random(0, 3)` seconds and an observability
signal, and the call fails with the terminal retries-exhausted error, an
error distinct from a single-attempt HTTP failure; a 2xx response at any
attempt index 0–4 ends the loop with the text of that response and no
further attempts. -/
theorem c2_retry_protocol (env : GeminiEnv) :
    ((∀ i, i < 5 → (env.gen i).status = 429 ∨ (env.gen i).status = 503) →
      generateWithRetry env =
        (.error .retriesExhausted,
         ⟨5, (List.range 5).map (fun i => (2 : ℚ) ^ i + env.backoff i),
          (List.range 5).map (fun i => (env.gen i).status), false⟩)) ∧
    (∀ j t, j < 5 →
      (∀ i, i < j → (env.gen i).status = 429 ∨ (env.gen i).status = 503) →
      200 ≤ (env.gen j).status → (env.gen j).status < 300 →
      (env.gen j).text = some t →
      generateWithRetry env =
        (.ok t, ⟨j + 1, (List.range j).map (fun i => (2 : ℚ) ^ i + env.backoff i),
                 (List.range j).map (fun i => (env.gen i).status), true⟩)) ∧
    (∀ s, (GeminiError.retriesExhausted : GeminiError) ≠ .httpError s) := by
  refine ⟨?_, ?_, ?_⟩
  · intro h
    have hml := genLoop_all_retry env 5 0 emptyGenTrace (fun i _ h2 => h i (by omega))
    show genLoop env 5 0 emptyGenTrace = _
    rw [hml]
    simp [emptyGenTrace, List.range_eq_range']
  · intro j t hj hpre hlo hhi htxt
    have hnr : ¬((env.gen (0 + j)).status = 429 ∨ (env.gen (0 + j)).status = 503) := by
      simp only [Nat.zero_add]
      omega
    have hok : raise_for_status (env.gen (0 + j)).status = false := by
      simp only [Nat.zero_add, raise_for_status, decide_eq_false_iff_not]
      omega
    have hml := genLoop_success env j 5 0 emptyGenTrace t hj
      (fun i _ h2 => hpre i (by omega)) hnr hok (by simpa using htxt)
    show genLoop env 5 0 emptyGenTrace = _
    rw [hml]
    simp [emptyGenTrace, List.range_eq_range']
  · intro s h
    exact GeminiError.noConfusion h

/-- Witness for C2: with 429 at every attempt and backoff samples 0, the call
makes 5 attempts, sleeps 1, 2, 4, 8, 16 seconds, signals 5 times and fails
with the retries-exhausted error; with 429 at attempt 0 and 200 at attempt 1
it returns the body text after exactly 2 attempts. -/
theorem c2_retry_protocol_witness :
    generateWithRetry rateLimitedEnv =
      (.error .retriesExhausted, ⟨5, [1, 2, 4, 8, 16], [429, 429, 429, 429, 429], false⟩) ∧
    generateWithRetry recoverEnv = (.ok "hi", ⟨2, [1], [429], true⟩) := by
  constructor
  · have h := (c2_retry_protocol rateLimitedEnv).1 (fun i _ => Or.inl rfl)
    rw [h]
    have hl : (List.range 5).map (fun i => (2 : ℚ) ^ i + rateLimitedEnv.backoff i) =
        [1, 2, 4, 8, 16] := by
      simp [rateLimitedEnv, List.range_succ]
      norm_num
    have hs : (List.range 5).map (fun i => (rateLimitedEnv.gen i).status) =
        [429, 429, 429, 429, 429] := by
      simp [rateLimitedEnv, List.range_succ]
    rw [hl, hs]
  · have hpre : ∀ i, i < 1 → (recoverEnv.gen i).status = 429 ∨ (recoverEnv.gen i).status = 503 := by
      intro i hi
      have h0 : i = 0 := by omega
      subst h0
      exact Or.inl rfl
    have h := (c2_retry_protocol recoverEnv).2.1 1 "hi" (by omega) hpre
      (by norm_num [recoverEnv]) (by norm_num [recoverEnv]) (by norm_num [recoverEnv])
    rw [h]
    have hl : (List.range 1).map (fun i => (2 : ℚ) ^ i + recoverEnv.backoff i) = [1] := by
      simp [recoverEnv, List.range_succ]
    have hs : (List.range 1).map (fun i => (recoverEnv.gen i).status) = [429] := by
      simp [recoverEnv, List.range_succ]
    rw [hl, hs]

/-- Counterexample for C7 as stated: a 304 response from the generation
endpoint is a non-2xx, non-429/503 status, yet `raise_for_status` does not
raise for it, so the call succeeds immediately rather than failing. -/
theorem c7_counterexample :
    generateWithRetry redirectEnv = (.ok "ok", ⟨1, [], [], true⟩) ∧
    ¬(200 ≤ 304 ∧ (304 : Nat) < 300) ∧ (304 : Nat) ≠ 429 ∧ (304 : Nat) ≠ 503 := by
  refine ⟨?_, by norm_num, by norm_num, by norm_num⟩
  have hnr : ¬((redirectEnv.gen 0).status = 429 ∨ (redirectEnv.gen 0).status = 503) := by
    norm_num [redirectEnv]
  have h := genLoop_final_step redirectEnv 4 0 emptyGenTrace hnr
  show genLoop redirectEnv (4 + 1) 0 emptyGenTrace = _
  rw [h]
  norm_num [redirectEnv, raise_for_status, emptyGenTrace]

/-- C7 amended: failures that `raise_for_status` recognises, namely 4xx/5xx
statuses, are never retried: a 4xx/5xx upload response fails the call at once
with a single upload call and no generation attempt, and a 4xx/5xx,
non-429/503 response at generation attempt 0 fails at once with exactly one
generation attempt. -/
theorem c7_no_retry_on_hard_http_error (env : GeminiEnv) (mp3_bytes : Bytes) :
    (mp3_bytes.length > 20 * 1024 * 1024 →
      400 ≤ env.upload.status → env.upload.status < 600 →
      gemini_audio env mp3_bytes =
        (.error (.uploadHttpError env.upload.status), ⟨1, none, emptyGenTrace⟩)) ∧
    (¬((env.gen 0).status = 429 ∨ (env.gen 0).status = 503) →
      400 ≤ (env.gen 0).status → (env.gen 0).status < 600 →
      generateWithRetry env =
        (.error (.httpError (env.gen 0).status), ⟨1, [], [], false⟩)) := by
  constructor
  · intro hlen h4 h6
    have hrs : raise_for_status env.upload.status = true := by
      simp only [raise_for_status, decide_eq_true_eq]
      exact ⟨h4, h6⟩
    simp only [gemini_audio, if_pos hlen, hrs, if_true]
  · intro hnr h4 h6
    have hra : raise_for_status (env.gen 0).status = true := by
      simp only [raise_for_status, decide_eq_true_eq]
      exact ⟨h4, h6⟩
    have h := genLoop_http_error env 4 0 emptyGenTrace hnr hra
    show genLoop env (4 + 1) 0 emptyGenTrace = _
    rw [h]
    rfl

/-- Witness for C7 amended: a 404 upload response for an over-threshold
payload fails at once with one upload call and no generation attempt, and a
400 generation response fails at once with exactly one attempt. -/
theorem c7_no_retry_on_hard_http_error_witness :
    gemini_audio uploadFailEnv bigBytes =
      (.error (.uploadHttpError 404), ⟨1, none, emptyGenTrace⟩) ∧
    generateWithRetry badRequestEnv = (.error (.httpError 400), ⟨1, [], [], false⟩) := by
  constructor
  · have hbig : bigBytes.length > 20 * 1024 * 1024 := by
      unfold bigBytes
      rw [List.length_replicate]
      omega
    exact (c7_no_retry_on_hard_http_error uploadFailEnv bigBytes).1 hbig
      (by norm_num [uploadFailEnv]) (by norm_num [uploadFailEnv])
  · exact (c7_no_retry_on_hard_http_error badRequestEnv []).2
      (by norm_num [badRequestEnv]) (by norm_num [badRequestEnv]) (by norm_num [badRequestEnv])

/-! Helper lemmas about the classifier. -/

theorem shortCond_iff (data : MediaMetadata) :
    (data.duration.getD 0 ≤ 60 ∨
      (data.height.getD 0 ≠ 0 ∧ data.width.getD 0 ≠ 0 ∧ data.height.getD 0 > data.width.getD 0)) ↔
    short_form_spec data := by
  unfold short_form_spec
  constructor
  · rintro (hd | ⟨hh, hw, hgt⟩)
    · exact Or.inl hd
    · right
      cases hww : data.width with
      | none => rw [hww] at hw; simp at hw
      | some wv =>
        cases hhh : data.height with
        | none => rw [hhh] at hh; simp at hh
        | some hv =>
          rw [hww] at hw hgt
          rw [hhh] at hh hgt
          exact ⟨wv, hv, rfl, rfl, by simpa using hw, by simpa using hh, by simpa using hgt⟩
  · rintro (hd | ⟨wv, hv, hww, hhh, hwnz, hhnz, hgt⟩)
    · exact Or.inl hd
    · right
      rw [hww, hhh]
      exact ⟨by simpa using hhnz, by simpa using hwnz, by simpa using hgt⟩

theorem streamCond_iff (data : MediaMetadata) :
    is_stream data = true ↔ live_stream_spec data := by
  unfold is_stream live_stream_spec
  cases hi : data.is_live <;> cases hw : data.was_live <;> cases hl : data.live_status <;>
    (simp [truthy, List.elem_iff]; try tauto)

/-- C3: for every metadata input, `classify_video` returns short-form exactly
when the duration (0 when unknown) is at most 60 seconds or both dimensions
are known, nonzero, and height exceeds width; otherwise it returns
live/stream exactly when the metadata signals live, previously live, or a
live-status value among is_live, was_live, is_upcoming; otherwise it returns
eligible-video.  Short-form detection takes priority over live/stream
detection. -/
theorem c3_classifier_rules (data : MediaMetadata) :
    (classify_video data = "shorts" ↔ short_form_spec data) ∧
    (classify_video data = "stream" ↔ ¬ short_form_spec data ∧ live_stream_spec data) ∧
    (classify_video data = "video" ↔ ¬ short_form_spec data ∧ ¬ live_stream_spec data) := by
  have hshort := shortCond_iff data
  have hstream := streamCond_iff data
  by_cases hs : data.duration.getD 0 ≤ 60 ∨
      (data.height.getD 0 ≠ 0 ∧ data.width.getD 0 ≠ 0 ∧ data.height.getD 0 > data.width.getD 0)
  · have hcl : classify_video data = "shorts" := by
      simp only [classify_video]
      rw [if_pos hs]
    have hsp : short_form_spec data := hshort.mp hs
    rw [hcl]
    refine ⟨⟨fun _ => hsp, fun _ => rfl⟩, ⟨fun h => absurd h (by decide), ?_⟩,
            ⟨fun h => absurd h (by decide), ?_⟩⟩
    · rintro ⟨hns, _⟩; exact absurd hsp hns
    · rintro ⟨hns, _⟩; exact absurd hsp hns
  · have hnsp : ¬ short_form_spec data := fun h => hs (hshort.mpr h)
    by_cases ht : is_stream data
    · have hcl : classify_video data = "stream" := by
        simp only [classify_video]
        rw [if_neg hs, if_pos ht]
      have hst : live_stream_spec data := hstream.mp ht
      rw [hcl]
      refine ⟨⟨fun h => absurd h (by decide), fun h => absurd h hnsp⟩,
              ⟨fun _ => ⟨hnsp, hst⟩, fun _ => rfl⟩,
              ⟨fun h => absurd h (by decide), ?_⟩⟩
      rintro ⟨_, hnst⟩; exact absurd hst hnst
    · have hcl : classify_video data = "video" := by
        simp only [classify_video]
        rw [if_neg hs, if_neg ht]
      have hnst : ¬ live_stream_spec data := fun h => ht (hstream.mpr h)
      rw [hcl]
      exact ⟨⟨fun h => absurd h (by decide), fun h => absurd h hnsp⟩,
             ⟨fun h => absurd h (by decide), fun h => absurd h.2 hnst⟩,
             ⟨fun _ => ⟨hnsp, hnst⟩, fun _ => rfl⟩⟩

/-- C10: metadata with no duration field is classified short-form: the
classifier reads the missing duration as 0, which is at most 60, whatever
the dimensions and live flags say.  Such an item is never eligible-video. -/
theorem c10_missing_duration_is_shorts (data : MediaMetadata)
    (h : data.duration = none) :
    classify_video data = "shorts" ∧ classify_video data ≠ "video" := by
  have hcl : classify_video data = "shorts" := by
    simp only [classify_video, h]
    rw [if_pos (Or.inl (by simp))]
  exact ⟨hcl, by rw [hcl]; decide⟩

/-- Witness for C10: a landscape, currently-live item with unknown duration
is still classified short-form. -/
theorem c10_missing_duration_is_shorts_witness :
    (MediaMetadata.mk none (some 1920) (some 1080) (some true) none (some "is_live")).duration
      = none ∧
    classify_video (MediaMetadata.mk none (some 1920) (some 1080) (some true) none
      (some "is_live")) = "shorts" :=
  ⟨rfl, (c10_missing_duration_is_shorts _ rfl).1⟩

/-! Helper lemmas about the crawl loop. -/

theorem runEntries_mem (handler : FeedEntry → Except EntryError Unit) (since_ts : Int) :
    ∀ (es : List FeedEntry) (e : FeedEntry), e ∈ (runEntries handler since_ts es).2 →
      ∃ t, e.published_parsed = some t ∧ since_ts ≤ timegm t := by
  intro es
  induction es with
  | nil => intro e he; simp [runEntries] at he
  | cons a rest ih =>
    intro e he
    cases hp : a.published_parsed with
    | none =>
      simp only [runEntries, hp] at he
      exact ih e he
    | some t =>
      by_cases hw : timegm t < since_ts
      · simp only [runEntries, hp, if_pos hw] at he
        exact ih e he
      · cases hh : handler a with
        | error err =>
          simp only [runEntries, hp, if_neg hw, hh] at he
          simp at he
          subst he
          exact ⟨t, hp, le_of_not_lt hw⟩
        | ok u =>
          cases u
          simp only [runEntries, hp, if_neg hw, hh] at he
          simp at he
          rcases he with he | he
          · subst he
            exact ⟨t, hp, le_of_not_lt hw⟩
          · exact ih e he

theorem crawl_mem (handler : FeedEntry → Except EntryError Unit) (now : Int) :
    ∀ (srcs : List SourceResult) (e : FeedEntry), e ∈ (crawl handler now srcs).2 →
      ∃ t, e.published_parsed = some t ∧ now - (WINDOW_HOURS : Int) * 3600 ≤ timegm t := by
  intro srcs
  induction srcs with
  | nil => intro e he; simp [crawl] at he
  | cons s rest ih =>
    intro e he
    cases s with
    | parseFailure => simp [crawl] at he
    | parsed es =>
      rcases hre : runEntries handler (now - (WINDOW_HOURS : Int) * 3600) es with ⟨r, l⟩
      cases r with
      | error err =>
        simp only [crawl, hre] at he
        exact runEntries_mem handler _ es e (by rw [hre]; exact he)
      | ok u =>
        cases u
        simp only [crawl, hre] at he
        rcases List.mem_append.mp he with he | he
        · exact runEntries_mem handler _ es e (by rw [hre]; exact he)
        · exact ih e he

/-- Counterexample for C4 as stated: an entry carrying only an updated
timestamp (no published timestamp) that lies inside the recency window is
skipped by the crawl loop, not passed to the entry pipeline: there is no
fallback from the published timestamp to the updated timestamp. -/
theorem c4_counterexample :
    crawl (fun _ => .ok ()) 1714600000
      [.parsed [⟨some "v", "T", some "A", "2024-05-01", none, some ⟨2024, 5, 1, 12, 0, 0⟩⟩]] =
      (.ok (), []) ∧
    timegm ⟨2024, 5, 1, 12, 0, 0⟩ = 1714564800 ∧
    1714600000 - (WINDOW_HOURS : Int) * 3600 ≤ 1714564800 := by
  exact ⟨rfl, by decide, by decide⟩

/-- C4 amended: the crawl loop takes the effective publish instant from the
published timestamp only, with no fallback to the updated timestamp; every
entry passed to the entry pipeline has a published timestamp whose
calendar-correct UTC epoch (computed by `timegm`, which takes no timezone
input) is at least `now − WINDOW_HOURS * 3600`, so entries strictly older
than the window, and entries with no published timestamp, are never passed.
The conversion is calendar-correct: the leap-affected instant 2000-03-01
00:00:00 UTC maps to epoch 951868800. -/
theorem c4_published_only_window (handler : FeedEntry → Except EntryError Unit)
    (now : Int) (srcs : List SourceResult) (e : FeedEntry)
    (hmem : e ∈ (crawl handler now srcs).2) :
    (∃ t, e.published_parsed = some t ∧ now - (WINDOW_HOURS : Int) * 3600 ≤ timegm t) ∧
    timegm ⟨2000, 3, 1, 0, 0, 0⟩ = 951868800 :=
  ⟨crawl_mem handler now srcs e hmem, by decide⟩

/-- Witness for C4 amended: a concrete entry published 2024-05-01T12:00:00Z
is passed to the pipeline when `now` is within 24 hours of it, and the
theorem yields its in-window published timestamp. -/
theorem c4_published_only_window_witness :
    (⟨some "v", "T", some "A", "2024-05-01", some ⟨2024, 5, 1, 12, 0, 0⟩, none⟩ : FeedEntry) ∈
      (crawl (fun _ => .ok ()) 1714600000
        [.parsed [⟨some "v", "T", some "A", "2024-05-01", some ⟨2024, 5, 1, 12, 0, 0⟩, none⟩]]).2 ∧
    ((∃ t, (⟨some "v", "T", some "A", "2024-05-01", some ⟨2024, 5, 1, 12, 0, 0⟩, none⟩ :
        FeedEntry).published_parsed = some t ∧
        1714600000 - (WINDOW_HOURS : Int) * 3600 ≤ timegm t) ∧
     timegm ⟨2000, 3, 1, 0, 0, 0⟩ = 951868800) :=
  ⟨by decide,
   c4_published_only_window (fun _ => .ok ()) 1714600000
     [.parsed [⟨some "v", "T", some "A", "2024-05-01", some ⟨2024, 5, 1, 12, 0, 0⟩, none⟩]]
     ⟨some "v", "T", some "A", "2024-05-01", some ⟨2024, 5, 1, 12, 0, 0⟩, none⟩ (by decide)⟩

/-- Counterexample for C5 as stated: with two entries in the first source and
a second healthy source, a probe failure on the first entry terminates the
whole crawl: the second entry and the second source are never processed, and
the exception escapes the loop. -/
theorem c5_counterexample :
    crawl (fun e => if e.yt_videoid = some "A" then .error .probeFailed else .ok ())
      1714600000
      [.parsed [⟨some "A", "T1", some "C", "2024-05-01", some ⟨2024, 5, 1, 12, 0, 0⟩, none⟩,
                ⟨some "B", "T2", some "C", "2024-05-01", some ⟨2024, 5, 1, 13, 0, 0⟩, none⟩],
       .parsed [⟨some "D", "T3", some "C", "2024-05-01", some ⟨2024, 5, 1, 14, 0, 0⟩, none⟩]] =
      (.error (.entryError .probeFailed),
       [⟨some "A", "T1", some "C", "2024-05-01", some ⟨2024, 5, 1, 12, 0, 0⟩, none⟩]) := rfl

/-- C5 amended: per-entry and per-source failures are not caught by the crawl
loop.  The first exception raised while handling an in-window entry
propagates out of the loop immediately: no later entry of that source and no
later source is processed.  Likewise a failure parsing a source aborts the
loop before any remaining source. -/
theorem c5_failures_terminate_crawl (handler : FeedEntry → Except EntryError Unit)
    (now : Int) (e : FeedEntry) (es : List FeedEntry) (srcs : List SourceResult)
    (err : EntryError) (t : TimeStruct)
    (hpub : e.published_parsed = some t)
    (hwin : now - (WINDOW_HOURS : Int) * 3600 ≤ timegm t)
    (hfail : handler e = .error err) :
    crawl handler now (.parsed (e :: es) :: srcs) = (.error (.entryError err), [e]) ∧
    crawl handler now (.parseFailure :: srcs) = (.error .sourceError, []) := by
  constructor
  · have hwin2 : ¬ timegm t < now - (WINDOW_HOURS : Int) * 3600 := not_lt.mpr hwin
    simp only [crawl, runEntries, hpub, if_neg hwin2, hfail]
  · simp only [crawl]

/-- Witness for C5 amended: a concrete failing entry followed by another
entry and another source makes the crawl return the probe failure having
handled only the failing entry, and a concrete parse failure aborts with
nothing handled. -/
theorem c5_failures_terminate_crawl_witness :
    crawl (fun _ => .error .probeFailed) 1714600000
      [.parsed [⟨some "A", "T1", some "C", "2024-05-01", some ⟨2024, 5, 1, 12, 0, 0⟩, none⟩,
                ⟨some "B", "T2", some "C", "2024-05-01", some ⟨2024, 5, 1, 13, 0, 0⟩, none⟩],
       .parsed [⟨some "D", "T3", some "C", "2024-05-01", some ⟨2024, 5, 1, 14, 0, 0⟩, none⟩]] =
      (.error (.entryError .probeFailed),
       [⟨some "A", "T1", some "C", "2024-05-01", some ⟨2024, 5, 1, 12, 0, 0⟩, none⟩]) ∧
    crawl (fun _ => .error .probeFailed) 1714600000
      [.parseFailure,
       .parsed [⟨some "D", "T3", some "C", "2024-05-01", some ⟨2024, 5, 1, 14, 0, 0⟩, none⟩]] =
      (.error .sourceError, []) :=
  c5_failures_terminate_crawl (fun _ => .error .probeFailed) 1714600000
    ⟨some "A", "T1", some "C", "2024-05-01", some ⟨2024, 5, 1, 12, 0, 0⟩, none⟩
    [⟨some "B", "T2", some "C", "2024-05-01", some ⟨2024, 5, 1, 13, 0, 0⟩, none⟩]
    [.parsed [⟨some "D", "T3", some "C", "2024-05-01", some ⟨2024, 5, 1, 14, 0, 0⟩, none⟩]]
    .probeFailed ⟨2024, 5, 1, 12, 0, 0⟩ rfl (by decide) rfl

/-! Helper lemma about the entry pipeline. -/

theorem handle_entry_shape (env : EntryEnv) (entry : FeedEntry) :
    ((handle_entry env entry).1 = .ok (.written (out_filename entry)) ∧
     (handle_entry env entry).2.transcribeCalls = 1 ∧
     ∃ md, (handle_entry env entry).2.fileWritten = some (out_filename entry, md)) ∨
    ((∀ f, (handle_entry env entry).1 ≠ .ok (.written f)) ∧
     (handle_entry env entry).2.fileWritten = none) := by
  cases hv : entry.yt_videoid with
  | none =>
    right
    simp [handle_entry, hv]
  | some vid =>
    by_cases hvid : vid = ""
    · right
      simp [handle_entry, hv, hvid]
    · cases hp : env.probe with
      | error u =>
        right
        simp [handle_entry, hv, hvid, hp]
      | ok meta =>
        by_cases hk : classify_video meta ≠ "video"
        · right
          simp [handle_entry, hv, hvid, hp, hk]
        · cases hd : env.download with
          | error u =>
            right
            simp [handle_entry, hv, hvid, hp, hk, hd]
          | ok mp3 =>
            rcases hg : gemini_audio env.gemini mp3 with ⟨r, gt⟩
            cases r with
            | error ge =>
              right
              simp [handle_entry, hv, hvid, hp, hk, hd, hg]
            | ok md =>
              left
              simp [handle_entry, hv, hvid, hp, hk, hd, hg]

/-- Counterexample for C6 as stated: the entry pipeline keeps no idempotency
store, so invoking it a second time on the same entry repeats the whole
pipeline: each of two consecutive invocations makes one transcription call
(two in total, not zero on the replay), and the second invocation returns
written again instead of a skipped-duplicate outcome. -/
theorem c6_counterexample :
    (handle_entry okEnv eOk).1 = .ok (.written "2024-05-01_TitleWithBadChars_Chan.md") ∧
    (handle_entry okEnv eOk).2.transcribeCalls = 1 ∧
    (handle_entry okEnv eOk).2.transcribeCalls +
      (handle_entry okEnv eOk).2.transcribeCalls = 2 := by
  refine ⟨rfl, by decide, by decide⟩

/-- C6 amended: `handle_entry` maintains no idempotency store; it is a pure
function of the entry and the environment, and every invocation that ends in
the written outcome performs exactly one transcription call, so replaying
the same entry against the same environment transcribes it again rather than
skipping it as a duplicate. -/
theorem c6_no_idempotency_store (env : EntryEnv) (entry : FeedEntry) (f : String)
    (h : (handle_entry env entry).1 = .ok (.written f)) :
    (handle_entry env entry).2.transcribeCalls = 1 := by
  rcases handle_entry_shape env entry with ⟨_, hc, _⟩ | ⟨hnf, _⟩
  · exact hc
  · exact absurd h (hnf f)

/-- Witness for C6 amended: the concrete successful run writes its file and
makes exactly one transcription call. -/
theorem c6_no_idempotency_store_witness :
    (handle_entry okEnv eOk).1 = .ok (.written (out_filename eOk)) ∧
    (handle_entry okEnv eOk).2.transcribeCalls = 1 :=
  ⟨rfl, c6_no_idempotency_store okEnv eOk (out_filename eOk) rfl⟩

/-- C8: the output filename is computed deterministically from the publish
date, the title and the channel name alone; the title component is the title
with the nine path-unsafe characters removed, truncated to at most 80
characters, the channel component likewise truncated to at most 40; the
file actually written by the pipeline carries exactly this name; and the
sample title with bad characters sanitises to the expected string. -/
theorem c8_filename_sanitization (env : EntryEnv) (entry e2 : FeedEntry)
    (f md : String) :
    ((handle_entry env entry).2.fileWritten = some (f, md) → f = out_filename entry) ∧
    (entry.published = e2.published → entry.title = e2.title → entry.author = e2.author →
      out_filename entry = out_filename e2) ∧
    (title_safe entry).length ≤ 80 ∧
    (channel_safe entry).length ≤ 40 ∧
    (∀ c ∈ (title_safe entry).data, c ∉ unsafeChars) ∧
    (∀ c ∈ (channel_safe entry).data, c ∉ unsafeChars) ∧
    stripUnsafe "Title/With:Bad*Chars" = "TitleWithBadChars" := by
  refine ⟨?_, ?_, ?_, ?_, ?_, ?_, by decide⟩
  · intro h
    rcases handle_entry_shape env entry with ⟨_, _, md2, hw⟩ | ⟨_, hnone⟩
    · rw [hw] at h
      exact (Prod.mk.injEq _ _ _ _ ▸ (Option.some.injEq _ _ ▸ h.symm)).1
    · rw [hnone] at h
      exact absurd h (by simp)
  · intro h1 h2 h3
    simp [out_filename, title_safe, channel_safe, h1, h2, h3]
  · simp only [title_safe, takeChars, String.length, List.length_take]
    omega
  · simp only [channel_safe, takeChars, String.length, List.length_take]
    omega
  · intro c hc
    simp only [title_safe, takeChars, stripUnsafe] at hc
    have hmem := List.take_subset 80 _ hc
    exact of_decide_eq_true (List.mem_filter.mp hmem).2
  · intro c hc
    simp only [channel_safe, takeChars, stripUnsafe] at hc
    have hmem := List.take_subset 40 _ hc
    exact of_decide_eq_true (List.mem_filter.mp hmem).2

/-- Witness for C8: the concrete run writes the file whose name is built
from the first 10 characters of the published string, the sanitised
truncated title and the sanitised truncated channel. -/
theorem c8_filename_sanitization_witness :
    (handle_entry okEnv eOk).2.fileWritten =
      some ("2024-05-01_TitleWithBadChars_Chan.md", "MD") ∧
    "2024-05-01_TitleWithBadChars_Chan.md" = out_filename eOk ∧
    stripUnsafe "Title/With:Bad*Chars" = "TitleWithBadChars" :=
  ⟨by decide,
   (c8_filename_sanitization okEnv eOk eOk "2024-05-01_TitleWithBadChars_Chan.md" "MD").1
     (by decide),
   (c8_filename_sanitization okEnv eOk eOk "x" "MD").2.2.2.2.2.2⟩

/-- Counterexample for C9 as stated: when `pync` is unavailable and the
`osascript` fallback process cannot be spawned, `subprocess.run` raises and
`notify` propagates the failure to its caller even though the fallback was
tried. -/
theorem c9_counterexample :
    (notify ⟨false, false, true, 0⟩ "msg" "title").1 = .error () ∧
    Mech.osascript ∈ (notify ⟨false, false, true, 0⟩ "msg" "title").2 := by
  exact ⟨rfl, by decide⟩

/-- C9 amended: `notify` swallows any failure of the primary `pync`
mechanism, falling back to `osascript`, and ignores the exit status of the
fallback process; whenever the fallback process can be spawned the call
never propagates a failure, but an error spawning the fallback process
itself propagates to the caller. -/
theorem c9_notify_fallback (env : NotifyEnv) (msg title : String)
    (h : env.osaSpawnFails = false) :
    (notify env msg title).1 = .ok () ∧
    (env.usePync = false ∨ env.pyncRaises = true →
      Mech.osascript ∈ (notify env msg title).2) := by
  cases hp : env.usePync <;> cases hr : env.pyncRaises <;>
    simp [notify, osascriptStep, h, hp, hr]

/-- Witness for C9 amended: with `pync` raising and `osascript` spawnable,
the call succeeds and the fallback mechanism was tried. -/
theorem c9_notify_fallback_witness :
    (notify ⟨true, true, false, 1⟩ "m" "t").1 = .ok () ∧
    Mech.osascript ∈ (notify ⟨true, true, false, 1⟩ "m" "t").2 := by
  have h := c9_notify_fallback ⟨true, true, false, 1⟩ "m" "t" rfl
  exact ⟨h.1, h.2 (Or.inr rfl)⟩

end YTO
